import Mathlib

/-!
Shallow embedding of `patent_client/_sync/uspto/public_search/api.py`
(class `PublicSearchApi`): session bootstrap (`get_session`), the retrying
request executor (`make_request`), query construction (`run_query`),
document fetch (`get_document`), and the asynchronous document export
pipeline (`_request_save`, the poll loop, and the streaming download inside
`download_image`).

Modelling conventions:
* The HTTP transport (`PatentClientSession`, an `httpx.Client` subclass whose
  code is not part of the verified sources) is modelled from the spec's
  Transport Adapter interface: a request yields the next response of a finite
  oracle list and never raises for a bad status by itself; the client's cookie
  jar accumulates every cookie a response sets.  An exhausted oracle yields
  `Err.transportError`, the model's stand-in for a network failure.
* Mutable attributes of the Python object (`self.client.cookies`,
  `self.case_id`, `self.access_token` together with the injected default
  header, `self.session`) and the filesystem live in the state `St`.
  `self.access_token` and the default header `X-Access-Token` are always
  assigned together in the source, so a single field models both.
* Response bodies are opaque; the views the code takes of them
  (`response.text`, `response.json()["userCase"]["caseId"]`,
  `response.json()[0]["printStatus"]` / `["pdfName"]`, the streamed byte
  chunks) are fields of `HResp`.  A missing key raises `Err.keyError`,
  an undecodable body `Err.jsonError`, exactly where the Python code would
  raise.
* `Ev` records the externally visible actions in order: each outbound HTTP
  request, each invocation of `get_session` (tagged `bootstrap`), each
  `time.sleep`, and each opening of the destination file for writing.
* Machine integers: header parsing uses `Int`; `time.sleep` raises
  `ValueError` on a negative argument, as CPython's does.
-/

/-- One element of the decoded print-process response list:
`printStatus` and (optionally present) `pdfName`. -/
structure PrintEntry where
  printStatus : String
  pdfName : Option String
  deriving DecidableEq

/-- Outcome views of one HTTP response, as the Python code reads them.
`jsonSession`: `none` when `response.json()` fails, `some none` when the
decoded body lacks `userCase`/`caseId`, `some (some c)` when the case id is
present.  `jsonPrint` likewise views the body as the print-process JSON list.
`chunks` are the streamed bytes of `iter_bytes`; a chunk equal to `0` models
an empty chunk (falsy under `if chunk:`). -/
structure HResp where
  status : Nat
  retryAfter : Option String
  xAccessToken : Option String
  setCookies : List String
  text : String
  jsonSession : Option (Option Nat)
  jsonPrint : Option (List PrintEntry)
  chunks : List Nat
  deriving DecidableEq

/-- Source-database filter object built in `run_query` (lines 73-75):
one entry per requested source, with an empty country-code list. -/
structure DbFilter where
  databaseName : String
  countryCodes : List String
  deriving DecidableEq

/-- The `query` sub-object of the search request body.  The fields
overwritten by `run_query` (lines 68-77) are explicit; `qrest` models the
key/value pairs of the loaded `search_query.json` template that `run_query`
leaves untouched. -/
structure QueryBody where
  caseId : Option Nat
  op : String
  q : String
  queryName : String
  userEnteredQuery : String
  databaseFilters : List DbFilter
  plurals : Bool
  britishEquivalents : Bool
  qrest : List (String × String)
  deriving DecidableEq

/-- The top-level search request body.  `start`, `pageCount`, `sort` and the
`query` sub-object are overwritten by `run_query` (lines 65-77); `trest`
models the untouched remainder of the template. -/
structure SearchBody where
  start : Nat
  pageCount : Nat
  sort : String
  query : QueryBody
  trest : List (String × String)
  deriving DecidableEq

/-- Identity of an outbound HTTP request, by endpoint.  `user` is an opaque
(method, url, kwargs) triple handed to `make_request` by a caller; reissuing
the identical request reuses the same value. -/
inductive HttpReq where
  | user (tag : Nat)
  | landing
  | sessionPost
  | counts (q : QueryBody)
  | search (b : SearchBody)
  | highlight (guid : String) (source : String)
  | printSave (caseId : Option Nat) (pageKeys : List String) (guid : String) (source : String)
  | printProcess (jobId : String)
  | artifactGet (pdfName : String)
  deriving DecidableEq

/-- Externally visible events of a run, in order of occurrence. -/
inductive Ev where
  | http (r : HttpReq)
  | bootstrap
  | sleep (n : Int)
  | fileOpen (path : String)
  deriving DecidableEq

/-- Errors, named after the Python exceptions they model. -/
inductive Err where
  | transportError
  | httpStatusError (status : Nat)
  | keyError (key : String)
  | valueError
  | jsonError
  | indexError
  | usptoException (text : String)
  deriving DecidableEq

/-- State of a `PublicSearchApi` object together with its environment:
client cookie jar, `self.case_id`, `self.access_token` (and the injected
default header, assigned together with it), the decoded `self.session`
body, the destination filesystem (path to list of written chunks), the
remaining response oracle, and the event log. -/
structure St where
  cookies : List String
  caseId : Option Nat
  accessToken : Option String
  session : Option (Option Nat)
  fs : List (String × List Nat)
  oracle : List HResp
  evs : List Ev
  search_query : SearchBody
  deriving DecidableEq

/-- State after `PublicSearchApi.__init__` (lines 32-49): fresh client with
an empty cookie jar, `case_id = None`, no access token, `session = dict()`,
and the query template loaded from configuration.  The filesystem and the
response oracle parametrise the environment. -/
def initState (tmpl : SearchBody) (fs : List (String × List Nat)) (oracle : List HResp) : St :=
  { cookies := [], caseId := none, accessToken := none, session := none,
    fs := fs, oracle := oracle, evs := [], search_query := tmpl }

/-- File lookup in the modelled filesystem (first match wins). -/
def lookupFs (fs : List (String × List Nat)) (p : String) : Option (List Nat) :=
  List.lookup p fs

/-- Opening a file for writing in mode wb: create or truncate to empty. -/
def setFs (fs : List (String × List Nat)) (p : String) (v : List Nat) :
    List (String × List Nat) :=
  (p, v) :: fs

/-- Appending streamed chunks to an existing file. -/
def appendChunks (fs : List (String × List Nat)) (p : String) (cs : List Nat) :
    List (String × List Nat) :=
  match List.lookup p fs with
  | some old => (p, old ++ cs) :: fs
  | none => (p, cs) :: fs

/-- Decimal digit accumulator for `pyInt`. -/
def digitsToNat (acc : Nat) : List Char → Option Nat
  | [] => some acc
  | c :: cs => if c.isDigit then digitsToNat (10 * acc + (c.toNat - 48)) cs else none

/-- Sign handling for `pyInt`, on the whitespace-stripped character list. -/
def pyIntChars : List Char → Option Int
  | [] => none
  | '-' :: cs => if cs.isEmpty then none else (digitsToNat 0 cs).map (fun n => -(n : Int))
  | '+' :: cs => if cs.isEmpty then none else (digitsToNat 0 cs).map (fun n => (n : Int))
  | cs => (digitsToNat 0 cs).map (fun n => (n : Int))

/-- Python `int(s)` on a header value: strips surrounding whitespace, then
parses an optionally signed nonempty decimal digit string; `none` models
`ValueError` (digit-group underscores and non-ASCII digits, which CPython
also accepts, are out of the modelled input range). -/
def pyInt (s : String) : Option Int :=
  pyIntChars ((s.data.dropWhile Char.isWhitespace).reverse.dropWhile Char.isWhitespace).reverse

deriving instance DecidableEq for Except

/-- Issue one HTTP request through the transport: consume the next oracle
response, record the request event, and let the client's cookie jar absorb
the cookies the response sets.  An empty oracle models an unreachable
network. -/
def doRequest (r : HttpReq) (s : St) : Except Err HResp × St :=
  match s.oracle with
  | [] => (Except.error Err.transportError, s)
  | resp :: rest =>
      (Except.ok resp,
        { s with oracle := rest,
                 evs := s.evs ++ [Ev.http r],
                 cookies := s.cookies ++ resp.setCookies })

/-- Model of `httpx.Response.raise_for_status`: an error for every
non-success (non-2xx) status. -/
def raise_for_status (r : HResp) : Except Err Unit :=
  if 200 ≤ r.status ∧ r.status < 300 then Except.ok ()
  else Except.error (Err.httpStatusError r.status)

/-- Model of `PublicSearchApi.get_session` (lines 117-133).  In source
order: reset the cookie jar, GET the landing page, POST the session
endpoint, decode the body into `self.session`, extract the case id from the
body, then the access token from the `X-Access-Token` header, injecting it
into the default headers.  Each step's failure leaves the assignments made
so far in place, exactly as the Python attribute assignments would.  The
`bootstrap` event marks the invocation. -/
def get_session (s : St) : Except Err (Option Nat) × St :=
  let s0 := { s with evs := s.evs ++ [Ev.bootstrap], cookies := [] }
  match doRequest HttpReq.landing s0 with
  | (Except.error e, s1) => (Except.error e, s1)
  | (Except.ok _, s1) =>
    match doRequest HttpReq.sessionPost s1 with
    | (Except.error e, s2) => (Except.error e, s2)
    | (Except.ok resp, s2) =>
      match resp.jsonSession with
      | none => (Except.error Err.jsonError, s2)
      | some js =>
        let s3 := { s2 with session := some js }
        match js with
        | none => (Except.error (Err.keyError "caseId"), s3)
        | some cid =>
          let s4 := { s3 with caseId := some cid }
          match resp.xAccessToken with
          | none => (Except.error (Err.keyError "X-Access-Token"), s4)
          | some tok => (Except.ok js, { s4 with accessToken := some tok })

/-- Model of `PublicSearchApi.make_request` (lines 94-103): issue the
request; on a 403, bootstrap the session and reissue once; then, on a 429,
read the retry-after header, sleep its value plus one second, and reissue
once.  `int(...)` failure is `valueError`, a missing header `keyError`, and
`time.sleep` of a negative duration `valueError`, as in CPython. -/
def make_request (r : HttpReq) (s : St) : Except Err HResp × St :=
  match doRequest r s with
  | (Except.error e, s1) => (Except.error e, s1)
  | (Except.ok resp0, s1) =>
    match
      (if resp0.status = 403 then
        match get_session s1 with
        | (Except.error e, s2) => (Except.error e, s2)
        | (Except.ok _, s2) => doRequest r s2
      else (Except.ok resp0, s1)) with
    | (Except.error e, s2) => (Except.error e, s2)
    | (Except.ok resp1, s2) =>
      if resp1.status = 429 then
        match resp1.retryAfter with
        | none => (Except.error (Err.keyError "x-rate-limit-retry-after-seconds"), s2)
        | some hv =>
          match pyInt hv with
          | none => (Except.error Err.valueError, s2)
          | some n =>
            if n + 1 < 0 then (Except.error Err.valueError, s2)
            else doRequest r { s2 with evs := s2.evs ++ [Ev.sleep (n + 1)] }
      else (Except.ok resp1, s2)

/-- Model of the bibliographic record reference used by the export pipeline:
`obj.guid`, `obj.type`, `obj.image_location`, and
`obj.document_structure.page_count` flattened into one record. -/
structure PatentObj where
  guid : String
  type : String
  image_location : String
  page_count : Nat
  deriving DecidableEq

/-- Zero padding of the Python format spec `0>8`: pad the decimal digits of
`n` on the left with zeros up to width 8. -/
def zeroPad8 (n : Nat) : String :=
  String.mk (List.replicate (8 - (toString n).length) '0') ++ toString n

/-- Page-key sequence built by `_request_save` (lines 136-139): one key per
page for pages `1 .. page_count`, each of the form
`image_location` slash zero-padded page number followed by `.tif`. -/
def page_keys (image_location : String) (page_count : Nat) : List String :=
  (List.range' 1 page_count).map (fun i => image_location ++ "/" ++ zeroPad8 i ++ ".tif")

/-- Model of `PublicSearchApi._request_save` (lines 135-152): POST the print
submission with case id, page keys, guid and source; a 500 status raises
`UsptoException` with the response text; any other response's body text is
returned as the print-job id.  No `raise_for_status` is called here, so no
`httpStatusError` can arise from this function. -/
def request_save (obj : PatentObj) (s : St) : Except Err String × St :=
  match doRequest
      (HttpReq.printSave s.caseId (page_keys obj.image_location obj.page_count)
        obj.guid obj.type) s with
  | (Except.error e, s1) => (Except.error e, s1)
  | (Except.ok resp, s1) =>
    if resp.status = 500 then (Except.error (Err.usptoException resp.text), s1)
    else (Except.ok resp.text, s1)

/-- Shared pattern of lines 62-63 and 158-159: bootstrap the session first
when `self.case_id is None`. -/
def ensureSession (s : St) : Except Err Unit × St :=
  if s.caseId = none then
    match get_session s with
    | (Except.error e, s1) => (Except.error e, s1)
    | (Except.ok _, s1) => (Except.ok (), s1)
  else (Except.ok (), s)

/-- Search request body construction of `run_query` (lines 64-77): deep-copy
the template and overwrite start, page count, sort, case id, operator, the
query text (into `q`, `queryName` and `userEnteredQuery`), the per-source
database filters, and the two linguistic flags. -/
def buildQueryData (tmpl : SearchBody) (query : String) (start : Nat) (limit : Nat)
    (sort : String) (default_operator : String) (sources : List String)
    (expand_plurals : Bool) (british_equivalents : Bool) (case_id : Option Nat) :
    SearchBody :=
  { start := start, pageCount := limit, sort := sort, trest := tmpl.trest,
    query :=
      { caseId := case_id, op := default_operator, q := query, queryName := query,
        userEnteredQuery := query,
        databaseFilters := sources.map (fun src => { databaseName := src, countryCodes := [] }),
        plurals := expand_plurals, britishEquivalents := british_equivalents,
        qrest := tmpl.query.qrest } }

/-- Model of `PublicSearchApi.run_query` (lines 51-92): ensure a session,
build the request body, POST the counts call with the query sub-object and
the search call with the full body, both through `make_request`, raising on
non-success statuses.  Decoding the result page and the embedded error
object belong to the decode collaborator, outside this core. -/
def run_query (query : String) (s : St) (start : Nat := 0) (limit : Nat := 500)
    (sort : String := "date_publ desc") (default_operator : String := "OR")
    (sources : List String := ["US-PGPUB", "USPAT", "USOCR"])
    (expand_plurals : Bool := true) (british_equivalents : Bool := true) :
    Except Err Unit × St :=
  match ensureSession s with
  | (Except.error e, s1) => (Except.error e, s1)
  | (Except.ok _, s1) =>
    match
      buildQueryData s1.search_query query start limit sort default_operator sources
        expand_plurals british_equivalents s1.caseId with
    | data =>
      match make_request (HttpReq.counts data.query) s1 with
      | (Except.error e, s2) => (Except.error e, s2)
      | (Except.ok counts, s2) =>
        match raise_for_status counts with
        | Except.error e => (Except.error e, s2)
        | Except.ok _ =>
          match make_request (HttpReq.search data) s2 with
          | (Except.error e, s3) => (Except.error e, s3)
          | (Except.ok qr, s3) =>
            match raise_for_status qr with
            | Except.error e => (Except.error e, s3)
            | Except.ok _ => (Except.ok (), s3)

/-- Model of `PublicSearchApi.get_document` (lines 105-115): GET the
highlight endpoint for the record's guid and source through `make_request`,
raising on non-success; body decoding is out of scope. -/
def get_document (guid : String) (source : String) (s : St) : Except Err Unit × St :=
  match make_request (HttpReq.highlight guid source) s with
  | (Except.error e, s1) => (Except.error e, s1)
  | (Except.ok resp, s1) =>
    match raise_for_status resp with
    | Except.error e => (Except.error e, s1)
    | Except.ok _ => (Except.ok (), s1)

/-- Destination path of `download_image` (line 155): the directory joined
with the record's guid and the `.pdf` extension. -/
def outPath (path : String) (guid : String) : String :=
  path ++ "/" ++ guid ++ ".pdf"

/-- The submission step of `download_image` (lines 160-164): try
`_request_save`; only an `httpx.HTTPStatusError` is caught, in which case
the session is bootstrapped and the submission retried once.  State changes
made before the exception persist, as Python attribute mutations would. -/
def submitSave (obj : PatentObj) (s : St) : Except Err String × St :=
  match request_save obj s with
  | (Except.error (Err.httpStatusError _), s2) =>
    (match get_session s2 with
     | (Except.error e, s3) => (Except.error e, s3)
     | (Except.ok _, s3) => request_save obj s3)
  | r => r

/-- The poll loop of `download_image` (lines 165-176): POST the
print-process endpoint with the job id, raise for a non-success status,
decode the body as a JSON list, inspect the first entry's `printStatus`;
break when it equals the completed sentinel, else sleep one second and poll
again.  The source loop is `while True`; the fuel argument only bounds the
recursion and is chosen larger than the response oracle at the call site,
so fuel exhaustion is unreachable before the oracle is exhausted. -/
def pollLoop (jobId : String) : Nat → St → Except Err PrintEntry × St
  | 0, s => (Except.error Err.transportError, s)
  | fuel + 1, s =>
    match doRequest (HttpReq.printProcess jobId) s with
    | (Except.error e, s1) => (Except.error e, s1)
    | (Except.ok resp, s1) =>
      if 200 ≤ resp.status ∧ resp.status < 300 then
        match resp.jsonPrint with
        | none => (Except.error Err.jsonError, s1)
        | some [] => (Except.error Err.indexError, s1)
        | some (e0 :: _) =>
          if e0.printStatus = "COMPLETED" then (Except.ok e0, s1)
          else pollLoop jobId fuel { s1 with evs := s1.evs ++ [Ev.sleep 1] }
      else (Except.error (Err.httpStatusError resp.status), s1)

/-- Reading `print_data[0]["pdfName"]` (line 177) from the entry the poll
loop stopped on. -/
def getPdfName (e : PrintEntry) : Except Err String :=
  match e.pdfName with
  | none => Except.error (Err.keyError "pdfName")
  | some p => Except.ok p

/-- The streaming block of `download_image` (lines 178-192): open the
destination file for writing (creating or truncating it), GET the artifact
by name, raise for a non-success status, then write every non-empty chunk
in arrival order.  A status failure closes the response and propagates; the
file, already created by the open, stays on disk with whatever was
written. -/
def streamArtifact (out_path : String) (pdf_name : String) (s : St) :
    Except Err Unit × St :=
  let s0 := { s with fs := setFs s.fs out_path [],
                     evs := s.evs ++ [Ev.fileOpen out_path] }
  match doRequest (HttpReq.artifactGet pdf_name) s0 with
  | (Except.error e, s1) => (Except.error e, s1)
  | (Except.ok resp, s1) =>
    if 200 ≤ resp.status ∧ resp.status < 300 then
      (Except.ok (),
        { s1 with fs := appendChunks s1.fs out_path (resp.chunks.filter (fun c => c ≠ 0)) })
    else (Except.error (Err.httpStatusError resp.status), s1)

/-- Model of `PublicSearchApi.download_image` (lines 154-192): return the
destination path immediately when it already exists; otherwise ensure a
session, submit the print job (with the one-shot auth recovery of
`submitSave`), poll until the job is completed, read the artifact name, and
stream it to the destination file. -/
def download_image (obj : PatentObj) (path : String) (s : St) : Except Err String × St :=
  if (lookupFs s.fs (outPath path obj.guid)).isSome then (Except.ok (outPath path obj.guid), s)
  else
    match ensureSession s with
    | (Except.error e, s1) => (Except.error e, s1)
    | (Except.ok _, s1) =>
      match submitSave obj s1 with
      | (Except.error e, s2) => (Except.error e, s2)
      | (Except.ok print_job_id, s2) =>
        match pollLoop print_job_id (s2.oracle.length + 1) s2 with
        | (Except.error e, s3) => (Except.error e, s3)
        | (Except.ok entry, s3) =>
          match getPdfName entry with
          | Except.error e => (Except.error e, s3)
          | Except.ok pdf_name =>
            match streamArtifact (outPath path obj.guid) pdf_name s3 with
            | (Except.error e, s4) => (Except.error e, s4)
            | (Except.ok _, s4) => (Except.ok (outPath path obj.guid), s4)

/-! ## Helper lemmas -/

theorem lookup_setFs_self (fs : List (String × List Nat)) (p : String) (v : List Nat) :
    lookupFs (setFs fs p v) p = some v := by
  simp [lookupFs, setFs, List.lookup]

theorem lookup_appendChunks_isSome (fs : List (String × List Nat)) (p : String)
    (cs : List Nat) : (lookupFs (appendChunks fs p cs) p).isSome = true := by
  unfold appendChunks
  cases h : List.lookup p fs <;> simp [lookupFs, List.lookup]

theorem streamArtifact_run (out pdf : String) (s : St) (r : Except Err Unit) (s' : St)
    (h : streamArtifact out pdf s = (r, s')) :
    (∃ tail, s'.evs = s.evs ++ Ev.fileOpen out :: tail ∧
       ∀ e ∈ tail, e = Ev.http (HttpReq.artifactGet pdf)) ∧
    (lookupFs s'.fs out).isSome = true := by
  unfold streamArtifact doRequest at h
  cases ho : s.oracle with
  | nil =>
    simp only [ho] at h
    cases h
    exact ⟨⟨[], by simp, by simp⟩, by simp [lookup_setFs_self]⟩
  | cons resp rest =>
    simp only [ho] at h
    split at h
    · cases h
      refine ⟨⟨[Ev.http (HttpReq.artifactGet pdf)], by simp, by simp⟩, ?_⟩
      simp [lookup_appendChunks_isSome]
    · cases h
      exact ⟨⟨[Ev.http (HttpReq.artifactGet pdf)], by simp, by simp⟩,
        by simp [lookup_setFs_self]⟩

theorem download_image_exists (obj : PatentObj) (path : String) (s : St)
    (h : (lookupFs s.fs (outPath path obj.guid)).isSome = true) :
    download_image obj path s = (Except.ok (outPath path obj.guid), s) := by
  unfold download_image
  simp [h]

theorem download_image_ok_file (obj : PatentObj) (path : String) (s : St) (p : String)
    (s' : St) (h : download_image obj path s = (Except.ok p, s')) :
    p = outPath path obj.guid ∧ (lookupFs s'.fs (outPath path obj.guid)).isSome = true := by
  unfold download_image at h
  split at h
  · next hex =>
    cases h
    exact ⟨rfl, hex⟩
  · split at h
    · cases h
    · split at h
      · cases h
      · split at h
        · cases h
        · split at h
          · cases h
          · split at h
            · cases h
            · next hstream =>
              cases h
              exact ⟨rfl, (streamArtifact_run _ _ _ _ _ hstream).2⟩

/-- Expected event suffix of a poll loop that observes `k` pending responses
and then one completed response: a status request, then alternately a
one-second sleep and the next status request. -/
def pollEvs (jobId : String) : Nat → List Ev
  | 0 => [Ev.http (HttpReq.printProcess jobId)]
  | k + 1 => Ev.http (HttpReq.printProcess jobId) :: Ev.sleep 1 :: pollEvs jobId k

theorem pollEvs_count (jobId : String) (k : Nat) :
    (pollEvs jobId k).count (Ev.http (HttpReq.printProcess jobId)) = k + 1 := by
  induction k with
  | zero => simp [pollEvs]
  | succ k ih => simp [pollEvs, ih, List.count_cons]

theorem pollLoop_step (jobId : String) (s : St) (f : Nat) (pr : HResp) (tail : List HResp)
    (ho : s.oracle = pr :: tail) (h2 : 200 ≤ pr.status ∧ pr.status < 300)
    (pe : PrintEntry) (pes : List PrintEntry) (hj : pr.jsonPrint = some (pe :: pes))
    (hs : ¬ pe.printStatus = "COMPLETED") :
    pollLoop jobId (f + 1) s =
      pollLoop jobId f
        { s with oracle := tail,
                 evs := s.evs ++ [Ev.http (HttpReq.printProcess jobId), Ev.sleep 1],
                 cookies := s.cookies ++ pr.setCookies } := by
  simp only [pollLoop, doRequest, ho]
  simp [h2, hj, hs]

theorem pollLoop_done (jobId : String) (s : St) (f : Nat) (comp : HResp)
    (tail : List HResp) (ho : s.oracle = comp :: tail)
    (h2 : 200 ≤ comp.status ∧ comp.status < 300)
    (e : PrintEntry) (es : List PrintEntry) (hj : comp.jsonPrint = some (e :: es))
    (hs : e.printStatus = "COMPLETED") :
    pollLoop jobId (f + 1) s =
      (Except.ok e,
        { s with oracle := tail,
                 evs := s.evs ++ [Ev.http (HttpReq.printProcess jobId)],
                 cookies := s.cookies ++ comp.setCookies }) := by
  simp only [pollLoop, doRequest, ho]
  simp [h2, hj, hs]

theorem pollLoop_run (jobId : String) (pend : List HResp) :
    ∀ (comp : HResp) (rest : List HResp) (s : St) (fuel : Nat),
    s.oracle = pend ++ comp :: rest →
    (∀ r ∈ pend, (200 ≤ r.status ∧ r.status < 300) ∧
      ∃ e es, r.jsonPrint = some (e :: es) ∧ ¬ e.printStatus = "COMPLETED") →
    (200 ≤ comp.status ∧ comp.status < 300) →
    (∃ e es, comp.jsonPrint = some (e :: es) ∧ e.printStatus = "COMPLETED") →
    pend.length + 1 ≤ fuel →
    ∃ e es, comp.jsonPrint = some (e :: es) ∧
      (pollLoop jobId fuel s).1 = Except.ok e ∧
      (pollLoop jobId fuel s).2.oracle = rest ∧
      (pollLoop jobId fuel s).2.evs = s.evs ++ pollEvs jobId pend.length ∧
      (pollLoop jobId fuel s).2.fs = s.fs ∧
      (pollLoop jobId fuel s).2.caseId = s.caseId := by
  induction pend with
  | nil =>
    intro comp rest s fuel ho _ hcomp2 hdone hfuel
    obtain ⟨e, es, hjson, hstat⟩ := hdone
    cases fuel with
    | zero => exact absurd hfuel (by simp)
    | succ f =>
      rw [List.nil_append] at ho
      rw [pollLoop_done jobId s f comp rest ho hcomp2 e es hjson hstat]
      exact ⟨e, es, hjson, rfl, rfl, by simp [pollEvs], rfl, rfl⟩
  | cons pr pend ih =>
    intro comp rest s fuel ho hpend hcomp2 hdone hfuel
    obtain ⟨hp2, pe, pes, hpj, hps⟩ := hpend pr (by simp)
    cases fuel with
    | zero => exact absurd hfuel (by simp)
    | succ f =>
      rw [List.cons_append] at ho
      rw [pollLoop_step jobId s f pr (pend ++ comp :: rest) ho hp2 pe pes hpj hps]
      obtain ⟨e, es, hjson, h1, h2, h3, h4, h5⟩ :=
        ih comp rest
          { s with oracle := pend ++ comp :: rest,
                   evs := s.evs ++ [Ev.http (HttpReq.printProcess jobId), Ev.sleep 1],
                   cookies := s.cookies ++ pr.setCookies }
          f rfl (fun r hr => hpend r (by simp [hr])) hcomp2 hdone
          (by simp at hfuel; omega)
      exact ⟨e, es, hjson, h1, h2, by simp [h3, pollEvs], h4, h5⟩

theorem get_session_eq (s : St) (lr sr : HResp) (rest : List HResp)
    (ho : s.oracle = lr :: sr :: rest) (c : Nat) (t : String)
    (hjs : sr.jsonSession = some (some c)) (htok : sr.xAccessToken = some t) :
    get_session s =
      (Except.ok (some c),
        { s with caseId := some c, accessToken := some t, session := some (some c),
                 cookies := lr.setCookies ++ sr.setCookies,
                 oracle := rest,
                 evs := s.evs ++ [Ev.bootstrap, Ev.http HttpReq.landing,
                   Ev.http HttpReq.sessionPost] }) := by
  simp only [get_session, doRequest, ho]
  simp [hjs, htok]

theorem get_session_ok_shape (s : St) (v : Option Nat) (s' : St)
    (h : get_session s = (Except.ok v, s')) :
    ∃ lr sr rest c t, s.oracle = lr :: sr :: rest ∧
      sr.jsonSession = some (some c) ∧ sr.xAccessToken = some t ∧
      s' = { s with caseId := some c, accessToken := some t, session := some (some c),
                    cookies := lr.setCookies ++ sr.setCookies, oracle := rest,
                    evs := s.evs ++ [Ev.bootstrap, Ev.http HttpReq.landing,
                      Ev.http HttpReq.sessionPost] } := by
  cases ho : s.oracle with
  | nil => simp [get_session, doRequest, ho] at h
  | cons lr tail =>
    cases tail with
    | nil => simp [get_session, doRequest, ho] at h
    | cons sr rest =>
      cases hjs : sr.jsonSession with
      | none => simp [get_session, doRequest, ho, hjs] at h
      | some js =>
        cases js with
        | none => simp [get_session, doRequest, ho, hjs] at h
        | some c =>
          cases htok : sr.xAccessToken with
          | none => simp [get_session, doRequest, ho, hjs, htok] at h
          | some t =>
            rw [get_session_eq s lr sr rest ho c t hjs htok] at h
            exact ⟨lr, sr, rest, c, t, rfl, hjs, htok, (Prod.mk.injEq _ _ _ _ ▸ h).2.symm⟩

/-- The session-state invariant of the spec: a non-null case identifier
implies a non-null access token (installed in the default headers) and a
populated cookie jar. -/
def sessionInv (s : St) : Prop :=
  s.caseId.isSome = true → (s.accessToken.isSome = true ∧ s.cookies ≠ [])

/-! ## Concrete fixtures for witnesses and counterexamples -/

/-- An arbitrary concrete query template standing in for the content of
`search_query.json`. -/
def tmpl0 : SearchBody :=
  { start := 7, pageCount := 9, sort := "t",
    query := { caseId := some 99, op := "AND", q := "old", queryName := "old",
               userEnteredQuery := "old", databaseFilters := [], plurals := false,
               britishEquivalents := false, qrest := [("k", "v")] },
    trest := [("a", "b")] }

/-- A response with the given status and no other observable content. -/
def mkResp (st : Nat) : HResp :=
  { status := st, retryAfter := none, xAccessToken := none, setCookies := [],
    text := "", jsonSession := none, jsonPrint := none, chunks := [] }

/-- Landing-page response that sets one session cookie. -/
def landingResp : HResp := { mkResp 200 with setCookies := ["sessioncookie"] }

/-- Session-endpoint response carrying a case id and an access token. -/
def sessionRespGood : HResp :=
  { mkResp 200 with jsonSession := some (some 7), xAccessToken := some "tok" }

/-- Session-endpoint response whose body carries a case id but whose headers
lack the access token. -/
def sessionRespNoToken : HResp := { mkResp 200 with jsonSession := some (some 7) }

/-- Rate-limited response carrying the given retry-after header value. -/
def resp429 (v : String) : HResp := { mkResp 429 with retryAfter := some v }

/-- A concrete bibliographic record reference. -/
def objG1 : PatentObj :=
  { guid := "G1", type := "USPAT", image_location := "L", page_count := 2 }

/-- Successful print-job submission response with job id in the body. -/
def saveOK : HResp := { mkResp 200 with text := "J1" }

/-- Forbidden print-job submission response (auth-style HTTP error). -/
def save403 : HResp := { mkResp 403 with text := "denied" }

/-- Poll response whose first entry is still pending. -/
def pollPending : HResp :=
  { mkResp 200 with jsonPrint := some [{ printStatus := "PENDING", pdfName := none }] }

/-- Poll response whose first entry is completed, naming the artifact. -/
def pollDone : HResp :=
  { mkResp 200 with jsonPrint := some [{ printStatus := "COMPLETED", pdfName := some "f.pdf" }] }

/-- Successful artifact download response streaming two non-empty chunks
around one empty chunk. -/
def artifactOK : HResp := { mkResp 200 with chunks := [3, 0, 5] }

/-! ## Claim theorems -/

/-- C1 (amended): if the first response to a request made through
`make_request` has status 403, exactly one session bootstrap is performed
and, provided the bootstrap succeeds, the identical request is reissued
exactly once for the authentication condition; if the reissued response has
any status other than 429 — in particular a second 403 — it is returned to
the caller with no further bootstrap or reissue.  (A reissued response of
status 429 instead enters the separate rate-limit recovery, which performs
one additional reissue; see the counterexample.) -/
theorem make_request_403_bootstrap_once
    (r : HttpReq) (s : St) (r0 lr sr r1 : HResp) (rest : List HResp)
    (horacle : s.oracle = r0 :: lr :: sr :: r1 :: rest)
    (h403 : r0.status = 403)
    (hsess : ∃ c, sr.jsonSession = some (some c))
    (htok : ∃ t, sr.xAccessToken = some t)
    (hnot429 : ¬ r1.status = 429) :
    (make_request r s).1 = Except.ok r1 ∧
    (make_request r s).2.evs = s.evs ++
      [Ev.http r, Ev.bootstrap, Ev.http HttpReq.landing, Ev.http HttpReq.sessionPost,
       Ev.http r] ∧
    (make_request r s).2.oracle = rest := by
  obtain ⟨c, hc⟩ := hsess
  obtain ⟨t, ht⟩ := htok
  refine ⟨?_, ?_, ?_⟩ <;>
    simp [make_request, get_session, doRequest, horacle, h403, hc, ht, hnot429]

/-- Witness for C1: a concrete 403 followed by a successful bootstrap and a
second 403; the request is issued twice in total, one bootstrap occurs, and
the second 403 response is returned to the caller. -/
theorem make_request_403_bootstrap_once_witness :
    (make_request (HttpReq.user 5)
      (initState tmpl0 [] [mkResp 403, landingResp, sessionRespGood, mkResp 403])).1 =
      Except.ok (mkResp 403) ∧
    (make_request (HttpReq.user 5)
      (initState tmpl0 [] [mkResp 403, landingResp, sessionRespGood, mkResp 403])).2.evs =
      [Ev.http (HttpReq.user 5), Ev.bootstrap, Ev.http HttpReq.landing,
       Ev.http HttpReq.sessionPost, Ev.http (HttpReq.user 5)] ∧
    (make_request (HttpReq.user 5)
      (initState tmpl0 [] [mkResp 403, landingResp, sessionRespGood, mkResp 403])).2.oracle =
      [] :=
  make_request_403_bootstrap_once (HttpReq.user 5) _ _ _ _ _ _ rfl rfl
    ⟨7, rfl⟩ ⟨"tok", rfl⟩ (by decide)

/-- Counterexample to C1 as stated: with a first response of status 403 and
a reissued response of status 429, the identical request is issued three
times in total (reissued twice, once per recovery condition), not exactly
once; the bootstrap count is nonetheless one. -/
theorem make_request_403_reissued_twice_counterexample :
    (HResp.status (mkResp 403) = 403) ∧
    (make_request (HttpReq.user 0)
      (initState tmpl0 []
        [mkResp 403, landingResp, sessionRespGood, resp429 "0", mkResp 200])).2.evs.count
      (Ev.http (HttpReq.user 0)) = 3 ∧
    (make_request (HttpReq.user 0)
      (initState tmpl0 []
        [mkResp 403, landingResp, sessionRespGood, resp429 "0", mkResp 200])).2.evs.count
      Ev.bootstrap = 1 := by
  decide

/-- C2 (amended): when a response to a request made through `make_request`
has status 429, the executor reads the rate-limit header, parses it as an
integer N, sleeps N plus one seconds and reissues the identical request
exactly once — provided N plus one is non-negative; a missing header raises
`KeyError`, a non-numeric header raises `ValueError`, and a value making
the sleep duration negative also raises `ValueError` (from `time.sleep`)
instead of reissuing. -/
theorem make_request_429_policy
    (r : HttpReq) (s : St) (r0 r1 : HResp) (rest : List HResp)
    (horacle : s.oracle = r0 :: r1 :: rest)
    (h429 : r0.status = 429) :
    (∀ hv n, r0.retryAfter = some hv → pyInt hv = some n → ¬ n + 1 < 0 →
      (make_request r s).1 = Except.ok r1 ∧
      (make_request r s).2.evs = s.evs ++ [Ev.http r, Ev.sleep (n + 1), Ev.http r] ∧
      (make_request r s).2.oracle = rest) ∧
    (r0.retryAfter = none →
      (make_request r s).1 =
        Except.error (Err.keyError "x-rate-limit-retry-after-seconds")) ∧
    (∀ hv, r0.retryAfter = some hv → pyInt hv = none →
      (make_request r s).1 = Except.error Err.valueError) := by
  have hne : ¬ HResp.status r0 = 403 := by rw [h429]; decide
  refine ⟨fun hv n hh hp hs => ⟨?_, ?_, ?_⟩, fun hh => ?_, fun hv hh hp => ?_⟩
  · simp [make_request, doRequest, horacle, hne, h429, hh, hp, hs]
  · simp [make_request, doRequest, horacle, hne, h429, hh, hp, hs]
  · simp [make_request, doRequest, horacle, hne, h429, hh, hp, hs]
  · simp [make_request, doRequest, horacle, hne, h429, hh]
  · simp [make_request, doRequest, horacle, hne, h429, hh, hp]

/-- Witness for C2: a concrete 429 response with header value 2 causes a
sleep of exactly 3 seconds and exactly one reissue, whose response is
returned. -/
theorem make_request_429_policy_witness :
    (make_request (HttpReq.user 1) (initState tmpl0 [] [resp429 "2", mkResp 200])).1 =
      Except.ok (mkResp 200) ∧
    (make_request (HttpReq.user 1) (initState tmpl0 [] [resp429 "2", mkResp 200])).2.evs =
      [Ev.http (HttpReq.user 1), Ev.sleep 3, Ev.http (HttpReq.user 1)] ∧
    (make_request (HttpReq.user 1) (initState tmpl0 [] [resp429 "2", mkResp 200])).2.oracle =
      [] :=
  (make_request_429_policy (HttpReq.user 1) _ _ _ _ rfl rfl).1 "2" 2 rfl (by decide)
    (by decide)

/-- Counterexample to C2 as stated: a 429 response whose header holds the
integer value -3 is numeric, yet the call raises `ValueError` (from
`time.sleep` on the negative duration -2) instead of suspending and
reissuing once. -/
theorem make_request_429_negative_counterexample :
    HResp.status (resp429 "-3") = 429 ∧
    HResp.retryAfter (resp429 "-3") = some "-3" ∧
    pyInt "-3" = some (-3) ∧
    (make_request (HttpReq.user 0) (initState tmpl0 [] [resp429 "-3", mkResp 200])).1 =
      Except.error Err.valueError ∧
    (make_request (HttpReq.user 0) (initState tmpl0 [] [resp429 "-3", mkResp 200])).2.evs =
      [Ev.http (HttpReq.user 0)] := by
  decide

/-- C3: if the destination file already exists when `download_image` is
called, the call returns that path immediately with a completely unchanged
state — no network request, no bootstrap, no event at all; and every
successful call leaves the file present, so a second call for the same
record and destination returns the existing path with no activity. -/
theorem download_image_idempotent (obj : PatentObj) (path : String) (s : St) :
    ((lookupFs s.fs (outPath path obj.guid)).isSome = true →
      download_image obj path s = (Except.ok (outPath path obj.guid), s)) ∧
    (∀ p s', download_image obj path s = (Except.ok p, s') →
      p = outPath path obj.guid ∧
      download_image obj path s' = (Except.ok (outPath path obj.guid), s')) := by
  refine ⟨fun h => download_image_exists obj path s h, fun p s' h => ?_⟩
  obtain ⟨hp, hsome⟩ := download_image_ok_file obj path s p s' h
  exact ⟨hp, download_image_exists obj path s' hsome⟩

/-- Witness for C3: with the destination file already on disk, a concrete
call returns the path and leaves the state untouched; and after a concrete
successful export, the second call returns the same path with the state
untouched. -/
theorem download_image_idempotent_witness :
    download_image objG1 "p" (initState tmpl0 [("p/G1.pdf", [1])] []) =
      (Except.ok "p/G1.pdf", initState tmpl0 [("p/G1.pdf", [1])] []) :=
  (download_image_idempotent objG1 "p" (initState tmpl0 [("p/G1.pdf", [1])] [])).1
    (by decide)

/-- Concrete pre-state for a first export attempt that fails while starting
the artifact download: the submission and poll succeed, then the artifact
request returns status 404. -/
def stC4 : St :=
  { initState tmpl0 [] [saveOK, pollDone, mkResp 404] with
      caseId := some 5, accessToken := some "t", cookies := ["sessioncookie"] }

/-- Counterexample to C4 as stated: a first export that fails during the
download phase leaves an empty partial file at the destination; the
subsequent call finds the path exists, returns the partial file immediately
with an unchanged state, and does not re-attempt the export. -/
theorem download_image_partial_counterexample :
    (download_image objG1 "." stC4).1 = Except.error (Err.httpStatusError 404) ∧
    lookupFs (download_image objG1 "." stC4).2.fs "./G1.pdf" = some [] ∧
    download_image objG1 "." (download_image objG1 "." stC4).2 =
      (Except.ok "./G1.pdf", (download_image objG1 "." stC4).2) := by
  decide

/-- C4 (amended): when an export call fails after the destination file has
been created (so a partially written — possibly empty — file is on disk), a
subsequent `download_image` call for the same record and destination treats
the partial file as complete: it returns the existing path immediately with
no re-attempt and no network activity, rather than treating the file as
absent. -/
theorem download_image_partial_not_reattempted
    (obj : PatentObj) (path : String) (s : St) (e : Err) (s' : St)
    (hfail : download_image obj path s = (Except.error e, s'))
    (hfile : (lookupFs s'.fs (outPath path obj.guid)).isSome = true) :
    download_image obj path s' = (Except.ok (outPath path obj.guid), s') :=
  download_image_exists obj path s' hfile

/-- Witness for C4: the amended statement instantiated on the concrete
failing export of the counterexample state. -/
theorem download_image_partial_not_reattempted_witness :
    download_image objG1 "." (download_image objG1 "." stC4).2 =
      (Except.ok (outPath "." objG1.guid), (download_image objG1 "." stC4).2) :=
  download_image_partial_not_reattempted objG1 "." stC4 (Err.httpStatusError 404)
    (download_image objG1 "." stC4).2 (by decide) (by decide)

/-- Discriminator for the exception type caught by the submission recovery
branch of `download_image` (httpx.HTTPStatusError). -/
def isHttpStatusErr {α : Type} : Except Err α → Bool
  | Except.error (Err.httpStatusError _) => true
  | _ => false

/-- Concrete pre-state whose print-job submission returns status 403 with
body text denied. -/
def stC5 : St :=
  { initState tmpl0 [] [save403, pollDone, artifactOK] with
      caseId := some 1, accessToken := some "t", cookies := ["sessioncookie"] }

/-- C5 (code bug): the submission recovery branch is dead code.
`_request_save` can never raise `httpx.HTTPStatusError` (first conjunct:
no outcome of `request_save` is an httpStatusError), so an
authentication-style 403 on submission triggers no bootstrap and no
resubmission; instead the 403 response body text is used as the print-job
id, as the concrete run shows: one submission request, zero bootstraps, and
the poll is issued with job id denied. -/
theorem submission_auth_retry_dead_code :
    (∀ (obj : PatentObj) (s : St), isHttpStatusErr (request_save obj s).1 = false) ∧
    (download_image objG1 "." stC5).1 = Except.ok "./G1.pdf" ∧
    (download_image objG1 "." stC5).2.evs =
      [Ev.http (HttpReq.printSave (some 1) ["L/00000001.tif", "L/00000002.tif"] "G1"
        "USPAT"),
       Ev.http (HttpReq.printProcess "denied"),
       Ev.fileOpen "./G1.pdf",
       Ev.http (HttpReq.artifactGet "f.pdf")] := by
  refine ⟨fun obj s => ?_, by decide, by decide⟩
  unfold request_save doRequest
  cases s.oracle with
  | nil => simp [isHttpStatusErr]
  | cons resp rest =>
    by_cases h : resp.status = 500 <;> simp [h, isHttpStatusErr]

/-- C6: search request construction is deterministic — two `run_query`
executions with identical parameters build identical request bodies except
for the session case identifier, and the query text is placed identically
into the q, queryName and userEnteredQuery slots. -/
theorem run_query_body_deterministic
    (tmpl : SearchBody) (q : String) (start limit : Nat) (sort op : String)
    (sources : List String) (ep be : Bool) (c1 c2 : Option Nat) :
    buildQueryData tmpl q start limit sort op sources ep be c1 =
      { buildQueryData tmpl q start limit sort op sources ep be c2 with
          query := { (buildQueryData tmpl q start limit sort op sources ep be c2).query with
            caseId := c1 } } ∧
    (buildQueryData tmpl q start limit sort op sources ep be c1).query.q = q ∧
    (buildQueryData tmpl q start limit sort op sources ep be c1).query.queryName = q ∧
    (buildQueryData tmpl q start limit sort op sources ep be c1).query.userEnteredQuery = q :=
  ⟨rfl, rfl, rfl, rfl⟩

/-- C7: the page-key sequence has exactly one key per page, is 1-indexed in
ascending order with fixed-width zero-padded page numbers, and for three
pages at location X equals the three expected keys. -/
theorem page_keys_spec (L : String) (n : Nat) :
    (page_keys L n).length = n ∧
    (∀ k, k < n → (page_keys L n)[k]? = some (L ++ "/" ++ zeroPad8 (k + 1) ++ ".tif")) ∧
    page_keys "X" 3 = ["X/00000001.tif", "X/00000002.tif", "X/00000003.tif"] := by
  refine ⟨by simp [page_keys], fun k hk => ?_, by decide⟩
  simp [page_keys, List.getElem?_range', hk, Nat.add_comm 1 k]

/-- Witness for C7: the second page key (index 1) of a three-page record at
location X. -/
theorem page_keys_spec_witness :
    (page_keys "X" 3)[1]? = some ("X" ++ "/" ++ zeroPad8 (1 + 1) ++ ".tif") :=
  (page_keys_spec "X" 3).2.1 1 (by decide)

/-- C8: when the oracle supplies some pending poll responses followed by
the first response whose printStatus is COMPLETED, the poll loop performs
exactly one status request per response — pending count plus one in total —
terminates with the completed entry, and leaves the remaining oracle for
the streaming phase. -/
theorem poll_loop_completes_after_k_requests
    (jobId : String) (pend : List HResp) (comp : HResp) (rest : List HResp)
    (s : St) (fuel : Nat)
    (ho : s.oracle = pend ++ comp :: rest)
    (hpend : ∀ r ∈ pend, (200 ≤ r.status ∧ r.status < 300) ∧
      ∃ e es, r.jsonPrint = some (e :: es) ∧ ¬ e.printStatus = "COMPLETED")
    (hcomp2 : 200 ≤ comp.status ∧ comp.status < 300)
    (hdone : ∃ e es, comp.jsonPrint = some (e :: es) ∧ e.printStatus = "COMPLETED")
    (hfuel : pend.length + 1 ≤ fuel) :
    ∃ e, (pollLoop jobId fuel s).1 = Except.ok e ∧ e.printStatus = "COMPLETED" ∧
      (pollLoop jobId fuel s).2.evs.count (Ev.http (HttpReq.printProcess jobId)) =
        s.evs.count (Ev.http (HttpReq.printProcess jobId)) + (pend.length + 1) ∧
      (pollLoop jobId fuel s).2.oracle = rest := by
  obtain ⟨e, es, hjson, h1, h2, h3, _, _⟩ :=
    pollLoop_run jobId pend comp rest s fuel ho hpend hcomp2 hdone hfuel
  obtain ⟨e', es', hj', hs'⟩ := hdone
  rw [hjson] at hj'
  obtain ⟨rfl, rfl⟩ : e' = e ∧ es' = es := by
    simpa [eq_comm, and_comm] using hj'
  exact ⟨_, h1, hs', by simp [h3, List.count_append, pollEvs_count], h2⟩

/-- Helper for the C8 witness: the pending poll response satisfies the
pending-response hypothesis. -/
theorem pollPending_not_done :
    (200 ≤ pollPending.status ∧ pollPending.status < 300) ∧
    ∃ e es, pollPending.jsonPrint = some (e :: es) ∧ ¬ e.printStatus = "COMPLETED" :=
  ⟨by decide, ⟨{ printStatus := "PENDING", pdfName := none }, [], rfl, by decide⟩⟩

/-- Concrete pre-state for the C8 witness: two pending poll responses, then
a completed one. -/
def stC8 : St :=
  { initState tmpl0 [] [pollPending, pollPending, pollDone] with
      caseId := some 3, accessToken := some "t", cookies := ["sessioncookie"] }

/-- Witness for C8: a PENDING, PENDING, COMPLETED status sequence makes the
poll loop perform exactly three status requests and stop on the completed
entry. -/
theorem poll_loop_completes_after_k_requests_witness :
    ∃ e, (pollLoop "J1" 4 stC8).1 = Except.ok e ∧ e.printStatus = "COMPLETED" ∧
      (pollLoop "J1" 4 stC8).2.evs.count (Ev.http (HttpReq.printProcess "J1")) = 3 ∧
      (pollLoop "J1" 4 stC8).2.oracle = [] :=
  poll_loop_completes_after_k_requests "J1" [pollPending, pollPending] pollDone []
    stC8 4 rfl
    (fun r hr => by
      have hr' : r = pollPending := by simpa using hr
      rw [hr']
      exact pollPending_not_done)
    (by decide)
    ⟨{ printStatus := "COMPLETED", pdfName := some "f.pdf" }, [], rfl, rfl⟩
    (by decide)

/-- C9 (amended): the session invariant — a non-null case identifier
implies a non-null access token and a populated cookie jar — holds after
initial construction, and after every `get_session` that succeeds and whose
landing-page response sets at least one cookie; a `get_session` that fails
between extracting the case identifier and reading the token header can
violate it (see the counterexample). -/
theorem session_invariant_init_and_bootstrap :
    (∀ tmpl fs oracle, sessionInv (initState tmpl fs oracle)) ∧
    (∀ (s : St) (v : Option Nat) (s' : St) (lr : HResp),
      s.oracle.head? = some lr → lr.setCookies ≠ [] →
      get_session s = (Except.ok v, s') → sessionInv s') := by
  constructor
  · intro tmpl fs oracle h
    simp [initState] at h
  · intro s v s' lr hhead hck h
    obtain ⟨lr', sr, rest, c, t, ho, hjs, htok, rfl⟩ := get_session_ok_shape s v s' h
    have hlr : lr' = lr := by
      rw [ho] at hhead
      simpa using hhead
    subst hlr
    intro _
    refine ⟨by simp, fun hc => hck ?_⟩
    simpa using (List.append_eq_nil.mp (by simpa using hc)).1

/-- Witness for C9: a concrete successful bootstrap whose landing response
sets a cookie establishes the invariant on the resulting state. -/
theorem session_invariant_witness :
    sessionInv (get_session (initState tmpl0 [] [landingResp, sessionRespGood])).2 :=
  (session_invariant_init_and_bootstrap).2
    (initState tmpl0 [] [landingResp, sessionRespGood]) (some 7)
    (get_session (initState tmpl0 [] [landingResp, sessionRespGood])).2
    landingResp rfl (by decide) (by decide)

/-- Counterexample to C9 as stated: a `get_session` whose session response
carries a case id but no access-token header fails partway, leaving a
non-null case identifier with no access token and an empty cookie jar —
the invariant is violated after this operation. -/
theorem session_invariant_counterexample :
    (get_session (initState tmpl0 [] [mkResp 200, sessionRespNoToken])).1 =
      Except.error (Err.keyError "X-Access-Token") ∧
    (get_session (initState tmpl0 [] [mkResp 200, sessionRespNoToken])).2.caseId = some 7 ∧
    (get_session (initState tmpl0 [] [mkResp 200, sessionRespNoToken])).2.accessToken =
      none ∧
    ¬ sessionInv (get_session (initState tmpl0 [] [mkResp 200, sessionRespNoToken])).2 := by
  refine ⟨by decide, by decide, by decide, fun hinv => ?_⟩
  exact absurd (hinv (by decide)).1 (by decide)

/-- C10: the streaming block of `download_image` opens (creates or
truncates) the destination file before the artifact download request is
sent — the file-open event precedes any request event it emits — so
whatever the outcome, success or failure at any point of the download, a
file is present at the destination path afterwards. -/
theorem stream_opens_file_before_download
    (out pdf : String) (s : St) (r : Except Err Unit) (s' : St)
    (h : streamArtifact out pdf s = (r, s')) :
    (∃ tail, s'.evs = s.evs ++ Ev.fileOpen out :: tail ∧
      ∀ e ∈ tail, e = Ev.http (HttpReq.artifactGet pdf)) ∧
    ∃ content, lookupFs s'.fs out = some content := by
  obtain ⟨htail, hsome⟩ := streamArtifact_run out pdf s r s' h
  exact ⟨htail, Option.isSome_iff_exists.mp hsome⟩

/-- Witness for C10: a concrete streaming attempt whose download request
fails with status 500 still leaves the opened (empty) file present, with
the file-open event first. -/
theorem stream_opens_file_before_download_witness :
    (∃ tail, (streamArtifact "d/G.pdf" "f.pdf" (initState tmpl0 [] [mkResp 500])).2.evs =
        [] ++ Ev.fileOpen "d/G.pdf" :: tail ∧
      ∀ e ∈ tail, e = Ev.http (HttpReq.artifactGet "f.pdf")) ∧
    ∃ content,
      lookupFs (streamArtifact "d/G.pdf" "f.pdf" (initState tmpl0 [] [mkResp 500])).2.fs
        "d/G.pdf" = some content :=
  stream_opens_file_before_download "d/G.pdf" "f.pdf" (initState tmpl0 [] [mkResp 500])
    (Except.error (Err.httpStatusError 500))
    (streamArtifact "d/G.pdf" "f.pdf" (initState tmpl0 [] [mkResp 500])).2 (by decide)
